import Mathlib

/-!
Shallow embedding of the asmv-js core (packages/utils AsyncQueue,
packages/core ServiceContext, ClientContext retry helpers) and proofs
about the behaviour of its operations.

Conventions of the embedding:
* TypeScript arrays become `List`, object maps become association lists
  `List (String × _)` with lookup/replace semantics.
* Ajv validators (`ValidateFunction | undefined`) become
  `Option (V → Bool)`; `validate` with an undefined validator reports
  valid, mirroring `SchemaValidation.validate`.
* Promise resolution/rejection becomes an explicit `Except`-valued
  result; event emissions and outbound sends become explicit fields of
  result records.
* The transport send function is modelled by a boolean outcome
  parameter (`sendOk`): `true` means `sendMessageFn` resolved, `false`
  means it rejected with a transport error.
-/

namespace Asmv

/-! Async queue (packages/utils/src/lib/AsyncQueue.ts).
A consumer callback is modelled by its acceptance predicate; the
resolve/reject side effects of the real callback are reflected in the
result values of the operations below. -/

structure AsyncQueueState (T : Type) where
  items : List T
  consumers : List (T → Bool)

/-- Mirrors `createAsyncQueue`. -/
def createAsyncQueue (T : Type) : AsyncQueueState T := ⟨[], []⟩

/-- Mirrors `addToAsyncQueue`: if some waiting consumer accepts the item,
the first accepting consumer takes it (and, having been resolved, removes
itself via its `finalize`); otherwise the item is pushed to `items`. -/
def addToAsyncQueue {T : Type} (queue : AsyncQueueState T) (item : T) : AsyncQueueState T :=
  match queue.consumers.findIdx? (fun c => c item) with
  | some i => { queue with consumers := queue.consumers.eraseIdx i }
  | none => { queue with items := queue.items ++ [item] }

/-- Outcome of the synchronous part of `waitForAsyncQueue`. -/
inductive WaitForOutcome (T : Type) where
  /-- An item was shifted off the buffer and returned synchronously. -/
  | returned (item : T)
  /-- `waitForMs < 0` and the buffer was empty: resolved with undefined. -/
  | empty
  /-- A consumer was registered to wait for a future item. -/
  | registered
  deriving DecidableEq, Repr

/-- Mirrors `waitForAsyncQueue` (AsyncQueue.ts lines 109-164): it first
does `queue.items.shift()` and returns the shifted item if present
(note: without consulting `acceptFn`); on an empty buffer it returns
undefined when `waitForMs < 0` and otherwise registers a consumer whose
acceptance predicate is `acceptFn` (the timer of a positive `waitForMs`
is handled by the callers of this definition). -/
def waitForAsyncQueue {T : Type} (queue : AsyncQueueState T) (acceptFn : T → Bool)
    (waitForMs : Int) : WaitForOutcome T × AsyncQueueState T :=
  match queue.items with
  | item :: rest => (.returned item, { queue with items := rest })
  | [] =>
    if waitForMs < 0 then
      (.empty, queue)
    else
      (.registered, { queue with consumers := queue.consumers ++ [acceptFn] })

/-- Mirrors `flushAsyncQueue` with an error argument: items and consumers
are dropped; the returned number counts the consumers that were called
with the error (all of them, since an error is supplied). -/
def flushAsyncQueue {T : Type} (queue : AsyncQueueState T) : AsyncQueueState T × Nat :=
  (⟨[], []⟩, queue.consumers.length)

/-! Messages (packages/core/src/lib/Messages/MessageTypes.ts).
Payload data values are drawn from an arbitrary type `V`; only the
fields touched by the modelled code are carried. -/

/-- Mirrors `CommandInput`: one element of an input list. -/
structure CommandInput (V : Type) where
  inputType : String
  value : V
  deriving DecidableEq, Repr

/-- Mirrors `CommandInputTypeDescriptor`: the declared descriptor of an
input type; the schema itself lives in the compiled validator, the
`minCount` field is the one overridden when a `RequestInput` is sent. -/
structure CommandInputTypeDescriptor where
  description : String := ""
  minCount : Option Nat := none
  deriving DecidableEq, Repr

/-- Mirrors `CommandReturnItem` (`CommandOutput` / `CommandError`). -/
inductive CommandReturnItem (V : Type) where
  | output (outputType : String) (data : V) (summary : Option String)
  | error (errorName : String) (description : String) (data : Option V)
  deriving DecidableEq, Repr

/-- Mirrors the `userConfirmation` field of an `Invoke` message. -/
structure UserConfirmation where
  confirmedBy : String
  deriving DecidableEq, Repr

/-- Mirrors the `Message` union (one constructor per `MessageType`). -/
inductive Msg (V : Type) where
  | invoke (configProfiles : List (String × V)) (inputs : List (CommandInput V))
      (userConfirmation : Option UserConfirmation)
  | requestInput (inputs : List (String × CommandInputTypeDescriptor))
  | provideInput (inputs : List (CommandInput V))
  | ret (items : List (CommandReturnItem V)) (close : Bool)
  | cancel
  | requestUserConfirmation (reqId : String) (reason : Option String)
  | provideUserConfirmation (reqId : String) (confirmedBy : String)
  | requestPayment (reqId : String) (acceptedPaymentSchemas : List String)
      (amount : Int) (currency : String) (description : String)
  | authorizePayment (reqId : String) (paymentId : String) (paymentSchema : String)
      (amount : Int) (currency : String) (token : String)
  | rejectPayment (reqId : String) (reason : Option String)
  deriving DecidableEq, Repr

/-! Message errors (packages/core/src/lib/Messages/MessageErrors.ts).
The Ajv error-object details are opaque to the modelled control flow
and are not carried. -/

/-- Mirrors the `MessageError` variants produced during dispatch. -/
inductive MessageError where
  | missingConfigProfile (profileName : String)
  | invalidConfigProfile (profileName : String)
  | unknownInputType (inputIndex : Nat) (inputType : String)
  | invalidInput (inputIndex : Nat) (inputType : String)
  deriving DecidableEq, Repr

/-! Command definition (packages/core/src/lib/Definitions).
`ValidateFunction | undefined` becomes `Option (V → Bool)`;
`SchemaValidation.validate` reports valid when no validator exists. -/

/-- Mirrors `ConfigProfileDefinition`. -/
structure ConfigProfileDefinition (V : Type) where
  name : String
  schemaValidator : Option (V → Bool)

/-- Mirrors `ConfigProfileDefinition.validateData` composed with
`SchemaValidation.validate` (valid when the validator is undefined). -/
def ConfigProfileDefinition.validateData {V : Type} (d : ConfigProfileDefinition V)
    (data : V) : Bool :=
  match d.schemaValidator with
  | none => true
  | some f => f data

/-- Mirrors `InputDefinition`: descriptor plus compiled validator. -/
structure InputDefinition (V : Type) where
  descriptor : CommandInputTypeDescriptor
  validator : Option (V → Bool)

/-- Mirrors `OutputDefinition`. -/
structure OutputDefinition (V : Type) where
  validator : Option (V → Bool)

/-- Mirrors the `CommandDefinition` class: the config-profile set and the
input/output type maps (as association lists keyed by type name). -/
structure CommandDefinition (V : Type) where
  requiredConfigProfiles : List (ConfigProfileDefinition V)
  inputTypes : List (String × InputDefinition V)
  outputTypes : List (String × OutputDefinition V)

/-- Mirrors `CommandDefinition.getRequiredConfigProfiles`. -/
def CommandDefinition.getRequiredConfigProfiles {V : Type} (cd : CommandDefinition V) :
    List (ConfigProfileDefinition V) :=
  cd.requiredConfigProfiles

/-- Mirrors `CommandDefinition.doesRequireConfigProfile`. -/
def CommandDefinition.doesRequireConfigProfile {V : Type} (cd : CommandDefinition V)
    (name : String) : Bool :=
  cd.requiredConfigProfiles.any (fun profile => profile.name == name)

/-- Mirrors `CommandDefinition.hasInputType`. -/
def CommandDefinition.hasInputType {V : Type} (cd : CommandDefinition V)
    (name : String) : Bool :=
  (cd.inputTypes.lookup name).isSome

/-- Mirrors `CommandDefinition.getInputType`. -/
def CommandDefinition.getInputType {V : Type} (cd : CommandDefinition V)
    (name : String) : Option (InputDefinition V) :=
  cd.inputTypes.lookup name

/-- Mirrors `CommandDefinition.validateInput` composed with
`SchemaValidation.validate`. The TypeScript method throws when the type
is undefined; every modelled call site guards with `hasInputType`
first, so that branch is represented by `false` here. -/
def CommandDefinition.validateInput {V : Type} (cd : CommandDefinition V)
    (inputType : String) (data : V) : Bool :=
  match cd.inputTypes.lookup inputType with
  | some inputDef =>
    match inputDef.validator with
    | none => true
    | some f => f data
  | none => false

/-! Service context (src/unnamed/part_004, the `ServiceContext` class of
packages/core). The readonly collaborators (`commandDefinition`, option
flags) are carried inside the state record; the mutable fields are the
status, the user state, the config profiles, the two queues and the
return buffer. -/

/-- Mirrors the `ServiceContextStatus` enum. -/
inductive ServiceContextStatus where
  | Initialized
  | Active
  | Suspended
  | Cancelled
  | Finished
  deriving DecidableEq, Repr

/-- Mirrors `ServiceContextOptions` after merging with
`DefaultServiceContextOptions`. -/
structure ServiceContextOptions where
  validateReturnTypes : Bool := true
  deriving DecidableEq, Repr

/-- Mirrors `ServiceContextSerializedState`. The optional queues mirror
the `messageQueue?` / `inputQueue?` fields. -/
structure ServiceContextSerializedState (V State : Type) where
  status : ServiceContextStatus
  configProfiles : List (String × V)
  state : State
  messageQueue : Option (List (Msg V))
  inputQueue : Option (List (CommandInput V))
  deriving Repr

/-- The mutable and readonly per-invocation state of a `ServiceContext`.
The incoming message queue is typed at `Msg V`: no reachable operation
stores an undefined element, so the `Message | undefined` item type of
the source collapses to `Msg V` here. -/
structure ServiceContext (V State : Type) where
  opts : ServiceContextOptions
  commandDefinition : CommandDefinition V
  status : ServiceContextStatus
  state : State
  configProfiles : List (String × V)
  incomingMessageQueue : AsyncQueueState (Msg V)
  inputQueue : AsyncQueueState (CommandInput V)
  returnBuffer : List (CommandReturnItem V)

/-- Object-map assignment `this.configProfiles[name] = data`: replace an
existing binding or append a new one. -/
def setProfile {V : Type} (m : List (String × V)) (name : String) (data : V) :
    List (String × V) :=
  if (m.lookup name).isSome then
    m.map (fun p => if p.1 = name then (name, data) else p)
  else
    m ++ [(name, data)]

/-- Mirrors the `ServiceContext` constructor (part_004 lines 178-205):
with a serialized state, `status` and `state` are taken from the
snapshot and the queue items are re-seeded when the corresponding
snapshot field is present; the `configProfiles` field keeps its `{}`
initializer (the constructor never reads `serializedState.configProfiles`).
Without a snapshot, the status is `Initialized` and the state is the
empty object, passed here as `emptyState`. -/
def makeServiceContext {V State : Type} (opts : ServiceContextOptions)
    (commandDefinition : CommandDefinition V) (emptyState : State)
    (serializedState : Option (ServiceContextSerializedState V State)) :
    ServiceContext V State :=
  match serializedState with
  | some s =>
    { opts := opts
      commandDefinition := commandDefinition
      status := s.status
      state := s.state
      configProfiles := []
      incomingMessageQueue := { items := s.messageQueue.getD [], consumers := [] }
      inputQueue := { items := s.inputQueue.getD [], consumers := [] }
      returnBuffer := [] }
  | none =>
    { opts := opts
      commandDefinition := commandDefinition
      status := .Initialized
      state := emptyState
      configProfiles := []
      incomingMessageQueue := createAsyncQueue _
      inputQueue := createAsyncQueue _
      returnBuffer := [] }

/-- Mirrors `ServiceContext.serialize` (part_004 lines 413-427). The
`filter (item !== undefined)` over the queue items keeps every element
here because the modelled queues hold no undefined entries. -/
def ServiceContext.serialize {V State : Type} (ctx : ServiceContext V State)
    (serializeInputQueue : Bool := true) (serializeMessageQueue : Bool := true) :
    ServiceContextSerializedState V State :=
  { status := ctx.status
    configProfiles := ctx.configProfiles
    state := ctx.state
    messageQueue :=
      if serializeMessageQueue then some ctx.incomingMessageQueue.items else none
    inputQueue :=
      if serializeInputQueue then some ctx.inputQueue.items else none }

/-- Mirrors `ServiceContext.getConfigProfile`: an error when the command
does not require the profile, otherwise the stored value (`none` models
the undefined result of a missing map entry). -/
def ServiceContext.getConfigProfile {V State : Type} (ctx : ServiceContext V State)
    (name : String) : Except Unit (Option V) :=
  if ctx.commandDefinition.doesRequireConfigProfile name then
    .ok (ctx.configProfiles.lookup name)
  else
    .error ()

/-- Result of `ServiceContext.cancel`: the updated context, the number of
incoming-message-queue consumers rejected with the cancelled error, and
the `onCancel` emission. -/
structure CancelResult (V State : Type) where
  ctx : ServiceContext V State
  rejectedMessageWaiters : Nat
  onCancelEmitted : Bool

/-- Mirrors `ServiceContext.cancel` (part_004 lines 221-226): flush the
incoming message queue with the cancelled error, emit `onCancel`, set
the status to `Cancelled`. The input queue is not touched. -/
def ServiceContext.cancel {V State : Type} (ctx : ServiceContext V State) :
    CancelResult V State :=
  let flushed := flushAsyncQueue ctx.incomingMessageQueue
  { ctx := { ctx with incomingMessageQueue := flushed.1, status := .Cancelled }
    rejectedMessageWaiters := flushed.2
    onCancelEmitted := true }

/-- Errors surfaced by `sendMessage` / `sendReturnBuffer`. -/
inductive SendError where
  /-- `sendMessage` threw because the status is not `Active`. -/
  | notActive
  /-- `sendMessageFn` rejected with a transport error. -/
  | transport
  deriving DecidableEq, Repr

/-- Result of `ServiceContext.sendReturnBuffer`: the updated context, the
propagated error if any, and the `Return` payload (items, close flag)
when the send succeeded. -/
structure SendReturnResult (V State : Type) where
  ctx : ServiceContext V State
  result : Except SendError Unit
  sent : Option (List (CommandReturnItem V) × Bool)

/-- Mirrors `ServiceContext.sendReturnBuffer` (part_004 lines 434-449)
together with the status guard of `sendMessage` (lines 234-240). The
return buffer is sliced and replaced by a fresh one; `during` is the
list of items pushed by `returnData` / `returnError` while the transport
send was in flight (necessarily empty when the send throws synchronously
on a non-Active status). On failure the catch block runs
`this.returnBuffer = this.returnBuffer.concat(returnBuffer)`: the items
pushed during the send come first and the unsent slice follows. -/
def ServiceContext.sendReturnBuffer {V State : Type} (ctx : ServiceContext V State)
    (close : Bool) (during : List (CommandReturnItem V)) (sendOk : Bool) :
    SendReturnResult V State :=
  let returnBuffer := ctx.returnBuffer
  if ctx.status ≠ ServiceContextStatus.Active then
    { ctx := { ctx with returnBuffer := returnBuffer }
      result := .error .notActive
      sent := none }
  else if sendOk then
    { ctx := { ctx with returnBuffer := during }
      result := .ok ()
      sent := some (returnBuffer, close) }
  else
    { ctx := { ctx with returnBuffer := during ++ returnBuffer }
      result := .error .transport
      sent := none }

/-- Result of `ServiceContext.finish`. -/
structure FinishResult (V State : Type) where
  ctx : ServiceContext V State
  result : Except SendError Unit
  sent : Option (List (CommandReturnItem V) × Bool)
  onFinishEmitted : Bool

/-- Mirrors `ServiceContext.finish` (part_004 lines 683-687): await the
close-flush of the return buffer; only when it succeeded set the status
to `Finished` and emit `onFinish`. The handler task is blocked on the
await, so no item is pushed during the send (`during = []`). -/
def ServiceContext.finish {V State : Type} (ctx : ServiceContext V State)
    (sendOk : Bool) : FinishResult V State :=
  let r := ctx.sendReturnBuffer true [] sendOk
  match r.result with
  | .error e =>
    { ctx := r.ctx, result := .error e, sent := r.sent, onFinishEmitted := false }
  | .ok _ =>
    { ctx := { r.ctx with status := .Finished }
      result := .ok ()
      sent := r.sent
      onFinishEmitted := true }

/-- Result of `ServiceContext.suspend`. -/
structure SuspendResult (V State : Type) where
  ctx : ServiceContext V State
  sent : Option (List (CommandReturnItem V) × Bool)
  onSuspendEmitted : Bool

/-- Mirrors `ServiceContext.suspend` (part_004 lines 692-699): when the
return buffer is non-empty, fire `sendReturnBuffer(false)` without
awaiting it, then unconditionally set the status to `Suspended` and emit
`onSuspend`. The un-awaited send observes the pre-suspend status (the
guard in `sendMessage` runs before the status assignment) and a
rejection of it is unobserved by `suspend`. -/
def ServiceContext.suspend {V State : Type} (ctx : ServiceContext V State)
    (sendOk : Bool) : SuspendResult V State :=
  if ctx.returnBuffer.isEmpty then
    { ctx := { ctx with status := .Suspended }, sent := none, onSuspendEmitted := true }
  else
    let r := ctx.sendReturnBuffer false [] sendOk
    { ctx := { r.ctx with status := .Suspended }
      sent := r.sent
      onSuspendEmitted := true }

/-- Mirrors `ServiceContext.returnError` (no schema check): push an
error entry onto the return buffer. -/
def ServiceContext.returnError {V State : Type} (ctx : ServiceContext V State)
    (errorName : String) (description : String) (data : Option V) :
    ServiceContext V State :=
  { ctx with returnBuffer :=
      ctx.returnBuffer ++ [.error errorName description data] }

/-! Incoming dispatch (part_004 lines 247-404). -/

/-- The inner loop of the `Invoke` config-profile validation (part_004
lines 262-280): walk the required profiles in order; a missing profile
or an invalid one appends an error; a valid one is stored into the
context's `configProfiles` map immediately (before the error check that
follows the loop). Returns the collected errors and the updated map. -/
def processConfigProfiles {V : Type} (required : List (ConfigProfileDefinition V))
    (provided : List (String × V)) (stored : List (String × V)) :
    List MessageError × List (String × V) :=
  match required with
  | [] => ([], stored)
  | configProfileDef :: rest =>
    let configProfileName := configProfileDef.name
    match provided.lookup configProfileName with
    | none =>
      let r := processConfigProfiles rest provided stored
      (.missingConfigProfile configProfileName :: r.1, r.2)
    | some configProfileData =>
      if configProfileDef.validateData configProfileData then
        processConfigProfiles rest provided
          (setProfile stored configProfileName configProfileData)
      else
        let r := processConfigProfiles rest provided stored
        (.invalidConfigProfile configProfileName :: r.1, r.2)

/-- The indexed walk inside `validateInputsAndAddErrors` (part_004 lines
378-393): every element is visited; an unknown input type or an invalid
value appends an error and the walk continues with the next element. -/
def validateInputsWalk {V : Type} (cd : CommandDefinition V) (i : Nat) :
    List (CommandInput V) → List MessageError
  | [] => []
  | input :: rest =>
    if ¬ cd.hasInputType input.inputType then
      .unknownInputType i input.inputType :: validateInputsWalk cd (i + 1) rest
    else if ¬ cd.validateInput input.inputType input.value then
      .invalidInput i input.inputType :: validateInputsWalk cd (i + 1) rest
    else
      validateInputsWalk cd (i + 1) rest

/-- Mirrors `ServiceContext.validateInputsAndAddErrors`: appends the
collected input errors to the error array passed in. -/
def validateInputsAndAddErrors {V : Type} (cd : CommandDefinition V)
    (errors : List MessageError) (inputs : List (CommandInput V)) :
    List MessageError :=
  errors ++ validateInputsWalk cd 0 inputs

/-- Mirrors `ServiceContext.addInputListToBuffer`: each input is offered
to the input queue in order. -/
def addInputListToBuffer {V : Type} (queue : AsyncQueueState (CommandInput V))
    (inputs : List (CommandInput V)) : AsyncQueueState (CommandInput V) :=
  inputs.foldl addToAsyncQueue queue

/-- Rejection reasons of `handleIncomingMessage`. -/
inductive DispatchError where
  /-- `Invoke` while the status is not `Initialized`. -/
  | alreadyInvoked
  /-- A non-`Invoke` message while the status is not `Active`. -/
  | notActive
  /-- `InvalidMessage` with its collected child errors. -/
  | invalidMessage (childErrors : List MessageError)
  /-- The default switch case. -/
  | invalidMessageType
  deriving DecidableEq, Repr

/-- Result of `ServiceContext.handleIncomingMessage`: the updated
context, the promise settlement, the `onMessage` emissions, the
`onCancel` emission, the number of message-queue waiters rejected by an
inner `cancel()`, and the `Return` payload flushed by the finally block
(when it ran and the transport accepted it). -/
structure DispatchResult (V State : Type) where
  ctx : ServiceContext V State
  result : Except DispatchError Unit
  onMessageEmitted : List (Msg V)
  onCancelEmitted : Bool
  rejectedMessageWaiters : Nat
  flushedReturn : Option (List (CommandReturnItem V) × Bool)

/-- The switch statement of `handleIncomingMessage` (part_004 lines
250-362), without the finally block. -/
def dispatchCore {V State : Type} (ctx : ServiceContext V State) (message : Msg V) :
    DispatchResult V State :=
  match message with
  | .invoke configProfiles inputs userConfirmation =>
    if ctx.status ≠ ServiceContextStatus.Initialized then
      ⟨ctx, .error .alreadyInvoked, [], false, 0, none⟩
    else
      let processed := processConfigProfiles
        ctx.commandDefinition.getRequiredConfigProfiles configProfiles
        ctx.configProfiles
      let errors := validateInputsAndAddErrors ctx.commandDefinition processed.1 inputs
      let ctx1 := { ctx with configProfiles := processed.2 }
      if errors ≠ [] then
        ⟨ctx1, .error (.invalidMessage errors), [], false, 0, none⟩
      else
        let ctx2 := { ctx1 with
          status := .Active
          inputQueue := addInputListToBuffer ctx1.inputQueue inputs }
        let ctx3 := match userConfirmation with
          | some uc =>
            { ctx2 with incomingMessageQueue :=
                (addToAsyncQueue ctx2.incomingMessageQueue
                  (.provideUserConfirmation "" uc.confirmedBy)) }
          | none => ctx2
        ⟨ctx3, .ok (), [], false, 0, none⟩
  | .provideInput inputs =>
    if ctx.status ≠ ServiceContextStatus.Active then
      ⟨ctx, .error .notActive, [], false, 0, none⟩
    else
      let errors := validateInputsAndAddErrors ctx.commandDefinition [] inputs
      if errors ≠ [] then
        ⟨ctx, .error (.invalidMessage errors), [], false, 0, none⟩
      else
        ⟨{ ctx with inputQueue := addInputListToBuffer ctx.inputQueue inputs },
          .ok (), [message], false, 0, none⟩
  | .provideUserConfirmation _ _ =>
    if ctx.status ≠ ServiceContextStatus.Active then
      ⟨ctx, .error .notActive, [], false, 0, none⟩
    else
      ⟨{ ctx with incomingMessageQueue := addToAsyncQueue ctx.incomingMessageQueue message },
        .ok (), [message], false, 0, none⟩
  | .authorizePayment _ _ _ _ _ _ =>
    if ctx.status ≠ ServiceContextStatus.Active then
      ⟨ctx, .error .notActive, [], false, 0, none⟩
    else
      ⟨{ ctx with incomingMessageQueue := addToAsyncQueue ctx.incomingMessageQueue message },
        .ok (), [message], false, 0, none⟩
  | .rejectPayment _ _ =>
    if ctx.status ≠ ServiceContextStatus.Active then
      ⟨ctx, .error .notActive, [], false, 0, none⟩
    else
      ⟨{ ctx with incomingMessageQueue := addToAsyncQueue ctx.incomingMessageQueue message },
        .ok (), [message], false, 0, none⟩
  | .cancel =>
    if ctx.status ≠ ServiceContextStatus.Active then
      ⟨ctx, .error .notActive, [], false, 0, none⟩
    else
      let c := ctx.cancel
      ⟨c.ctx, .ok (), [], c.onCancelEmitted, c.rejectedMessageWaiters, none⟩
  | .requestInput _ => ⟨ctx, .error .invalidMessageType, [], false, 0, none⟩
  | .ret _ _ => ⟨ctx, .error .invalidMessageType, [], false, 0, none⟩
  | .requestUserConfirmation _ _ => ⟨ctx, .error .invalidMessageType, [], false, 0, none⟩
  | .requestPayment _ _ _ _ _ => ⟨ctx, .error .invalidMessageType, [], false, 0, none⟩

/-- Mirrors `ServiceContext.handleIncomingMessage` including the finally
block (part_004 lines 363-368): after the switch, when the status is
`Active` and the return buffer is non-empty, fire an un-awaited
`sendReturnBuffer(false)` whose transport outcome is `flushSendOk`. -/
def ServiceContext.handleIncomingMessage {V State : Type} (ctx : ServiceContext V State)
    (message : Msg V) (flushSendOk : Bool) : DispatchResult V State :=
  let core := dispatchCore ctx message
  if core.ctx.status = ServiceContextStatus.Active ∧ ¬ core.ctx.returnBuffer.isEmpty then
    let r := core.ctx.sendReturnBuffer false [] flushSendOk
    { core with ctx := r.ctx, flushedReturn := r.sent }
  else
    core

/-! The `getInputs` loop (part_004 lines 485-526), unfolded under the
environment in which no further input arrives while the handler waits:
each `waitForAsyncQueue` call then either shifts a buffered item, or
resolves with undefined immediately (negative timeout), or resolves with
undefined when its timer fires (positive timeout), or never resolves
(timeout 0 registers no timer). -/

/-- How a run of `getInputs` ends (no-arrival environment). -/
inductive GetInputsOutcome (V : Type) where
  /-- The loop collected `count` values and returned them. -/
  | ok (values : List V)
  /-- A waiting iteration resolved with undefined: input-timeout error. -/
  | timeout
  /-- A waiting iteration with timeout 0 registered a consumer and no
  timer: the handler blocks forever in this environment. -/
  | blocked
  deriving DecidableEq, Repr

/-- Trace of a `getInputs` run: its outcome, the `RequestInput` payloads
sent (input type with the descriptor whose `minCount` was overridden),
the timeout passed to each `waitForAsyncQueue` call, and the remaining
buffered items. -/
structure GetInputsTrace (V : Type) where
  outcome : GetInputsOutcome V
  sentRequests : List (String × CommandInputTypeDescriptor)
  waitTimeouts : List Int
  remainingItems : List (CommandInput V)
  deriving DecidableEq, Repr

/-- The while loop of `getInputs`: `items` is the input-queue buffer,
`acc` the collected values in reverse, `isWaiting` the flag that decides
the timeout of the next wait. An iteration passes timeout `-1` when not
waiting and `waitTimeoutMs` when waiting; a shifted item (which the
queue returns without consulting the predicate) is appended to the
result and clears `isWaiting`; an undefined reply while waiting throws
the input-timeout error; an undefined reply while not waiting sends a
`RequestInput` with `minCount = count - result.length`, sets `isWaiting`
and loops — that next iteration, on the still-empty no-arrival buffer,
is inlined here: it records its `waitTimeoutMs` wait and ends in the
timeout error (or blocks forever when `waitTimeoutMs = 0`). -/
def getInputsLoop {V : Type} (type : String) (descriptor : CommandInputTypeDescriptor)
    (count : Nat) (waitTimeoutMs : Int) :
    List (CommandInput V) → List V → Bool →
    List (String × CommandInputTypeDescriptor) → List Int → GetInputsTrace V
  | items, acc, isWaiting, sent, waits =>
    if acc.length ≥ count then
      ⟨.ok acc.reverse, sent.reverse, waits.reverse, items⟩
    else
      let tmo : Int := if isWaiting then waitTimeoutMs else -1
      match items with
      | item :: rest =>
        getInputsLoop type descriptor count waitTimeoutMs rest
          (item.value :: acc) false sent (tmo :: waits)
      | [] =>
        if isWaiting then
          if waitTimeoutMs = 0 then
            ⟨.blocked, sent.reverse, (tmo :: waits).reverse, []⟩
          else
            ⟨.timeout, sent.reverse, (tmo :: waits).reverse, []⟩
        else
          let sent1 := (type, { descriptor with minCount := some (count - acc.length) })
            :: sent
          let waits1 := waitTimeoutMs :: tmo :: waits
          if waitTimeoutMs = 0 then
            ⟨.blocked, sent1.reverse, waits1.reverse, []⟩
          else
            ⟨.timeout, sent1.reverse, waits1.reverse, []⟩

/-- Mirrors `ServiceContext.getInputs` under the no-arrival environment:
`none` models the thrown error for an input type that is not declared in
the command definition; otherwise run the loop on the buffered items
with an empty result and `isWaiting = false`. -/
def getInputsRun {V : Type} (cd : CommandDefinition V) (items : List (CommandInput V))
    (type : String) (count : Nat) (waitTimeoutMs : Int) :
    Option (GetInputsTrace V) :=
  match cd.getInputType type with
  | none => none
  | some inputType =>
    some (getInputsLoop type inputType.descriptor count waitTimeoutMs items [] false [] [])

/-! Client-side retry (packages/core Contexts/ClientContext.ts lines
95-125 and the `RetryOptions` helpers). -/

/-- Mirrors `RetryOptions` after merging with `DefaultRetryOptions`
(retries 3, base delay 500 ms, multiplier 1.5, max jitter 100 ms). -/
structure RetryOptions where
  sendMessageRetries : Nat := 3
  sendMessageRetryDelayMs : Rat := 500
  sendMessageRetryDelayMultiplier : Rat := 3 / 2
  sendMessageRetryMaxJitterMs : Nat := 100

/-- The merged default options. -/
def DefaultRetryOptions : RetryOptions := {}

/-- Mirrors `getRetryDelay`: `Math.floor(delayMs * (multiplier * retry))`
plus a jitter of `Math.floor(Math.random() * maxJitterMs)`; the random
draw is passed in as `jitter` (an integer below the max jitter). -/
def getRetryDelay (retry : Nat) (opts : RetryOptions) (jitter : Nat) : Int :=
  ⌊opts.sendMessageRetryDelayMs * (opts.sendMessageRetryDelayMultiplier * retry)⌋
    + jitter

/-- Modelled from the spec: the delay the spec attributes to the k-th
retry, `500 * 1.5^k` milliseconds rounded down, plus the jitter. Used
only to compare the spec's exponential-backoff sentence against
`getRetryDelay`. -/
def specExponentialDelay (k : Nat) (jitter : Nat) : Int :=
  ⌊(500 : Rat) * (3 / 2) ^ k⌋ + jitter

/-- One transport attempt outcome for `ClientContext.sendMessage`. -/
inductive AttemptOutcome where
  /-- `sendMessageFn` resolved. -/
  | success
  /-- `sendMessageFn` rejected with a `MessageTransportError` whose
  `canRetry` flag is the argument; any other rejection is modelled by
  `canRetry = false` (both break the loop without a retry). -/
  | transportError (canRetry : Bool)
  deriving DecidableEq, Repr

/-- Trace of `ClientContext.sendMessage` after the status guard and the
`onOutgoingMessage` emission: whether it returned normally or threw
`SendMessageError`, how many times `sendMessageFn` was invoked, and the
waited delays in order. -/
structure SendTrace where
  succeeded : Bool
  attempts : Nat
  delays : List Int
  deriving DecidableEq, Repr

/-- The `while (tries < maxTries)` loop of `ClientContext.sendMessage`:
`outcomes k` is the result of the k-th transport attempt and `jitters k`
the random jitter drawn for the delay after it. A retryable failure
waits `getRetryDelay(tries)` and increments `tries`; any other failure
breaks; loop exhaustion throws `SendMessageError`. -/
def sendMessageLoop (opts : RetryOptions) (outcomes : Nat → AttemptOutcome)
    (jitters : Nat → Nat) : Nat → Nat → SendTrace
  | _, 0 => ⟨false, 0, []⟩
  | tries, remaining + 1 =>
    match outcomes tries with
    | .success => ⟨true, 1, []⟩
    | .transportError canRetry =>
      if canRetry then
        let rest := sendMessageLoop opts outcomes jitters (tries + 1) remaining
        ⟨rest.succeeded, rest.attempts + 1,
          getRetryDelay tries opts (jitters tries) :: rest.delays⟩
      else
        ⟨false, 1, []⟩

/-- Mirrors `ClientContext.sendMessage` for an `Invoked` context:
run the attempt loop with `maxTries = opts.sendMessageRetries`. -/
def ClientContext.sendMessage (opts : RetryOptions) (outcomes : Nat → AttemptOutcome)
    (jitters : Nat → Nat) : SendTrace :=
  sendMessageLoop opts outcomes jitters 0 opts.sendMessageRetries

/-! Concrete fixtures used by the theorems below. -/

/-- Name of the sample required config profile. -/
def pStr : String := "p"

/-- Name of the sample declared input type. -/
def nameStr : String := "name"

/-- A sample undeclared input type. -/
def badAStr : String := "badA"

/-- Another sample undeclared input type. -/
def badBStr : String := "badB"

/-- A sample request id. -/
def rStr : String := "r"

/-- A sample user id. -/
def uStr : String := "u"

/-- A config profile definition named `p` without a schema. -/
def profileP : ConfigProfileDefinition Nat :=
  { name := "p", schemaValidator := none }

/-- A command definition requiring profile `p` and declaring input type
`name` without a schema. -/
def cd1 : CommandDefinition Nat :=
  { requiredConfigProfiles := [profileP]
    inputTypes := [("name", { descriptor := {}, validator := none })]
    outputTypes := [] }

/-- A freshly constructed context over `cd1`. -/
def ctxInit : ServiceContext Nat Nat :=
  makeServiceContext {} cd1 0 none

/-- The fresh context after a successful invocation (status `Active`). -/
def ctxActive : ServiceContext Nat Nat :=
  { ctxInit with status := .Active }

/-- An active context holding a stored config profile, a populated state
and one buffered entry in each queue. -/
def ctxRich : ServiceContext Nat Nat :=
  { ctxInit with
    status := .Active
    state := 7
    configProfiles := [("p", 5)]
    incomingMessageQueue := ⟨[Msg.provideUserConfirmation rStr uStr], []⟩
    inputQueue := ⟨[⟨"name", 3⟩], []⟩ }

/-- A sample output return item. -/
def itemA : CommandReturnItem Nat := .output "a" 1 none

/-- Another sample output return item. -/
def itemB : CommandReturnItem Nat := .output "b" 2 none

/-- Every transport attempt fails with a retryable error. -/
def allRetryOutcomes : Nat → AttemptOutcome := fun _ => .transportError true

/-- A zero random draw for every jitter. -/
def zeroJitter : Nat → Nat := fun _ => 0

/-! Helper lemmas shared by the claim theorems. -/

/-- `sendReturnBuffer` changes only the return buffer of the context. -/
theorem sendReturnBuffer_preserves_rest {V State : Type} (ctx : ServiceContext V State)
    (close : Bool) (during : List (CommandReturnItem V)) (sendOk : Bool) :
    (ctx.sendReturnBuffer close during sendOk).ctx.status = ctx.status ∧
    (ctx.sendReturnBuffer close during sendOk).ctx.state = ctx.state ∧
    (ctx.sendReturnBuffer close during sendOk).ctx.configProfiles = ctx.configProfiles ∧
    (ctx.sendReturnBuffer close during sendOk).ctx.incomingMessageQueue =
      ctx.incomingMessageQueue ∧
    (ctx.sendReturnBuffer close during sendOk).ctx.inputQueue = ctx.inputQueue := by
  unfold ServiceContext.sendReturnBuffer
  split
  · exact ⟨rfl, rfl, rfl, rfl, rfl⟩
  · split
    · exact ⟨rfl, rfl, rfl, rfl, rfl⟩
    · exact ⟨rfl, rfl, rfl, rfl, rfl⟩

/-- The finally block of `handleIncomingMessage` leaves every component
of the dispatch result except the return buffer and the flushed payload
as `dispatchCore` produced it. -/
theorem handleIncomingMessage_proj {V State : Type} (ctx : ServiceContext V State)
    (message : Msg V) (flushSendOk : Bool) :
    (ctx.handleIncomingMessage message flushSendOk).result =
      (dispatchCore ctx message).result ∧
    (ctx.handleIncomingMessage message flushSendOk).onMessageEmitted =
      (dispatchCore ctx message).onMessageEmitted ∧
    (ctx.handleIncomingMessage message flushSendOk).ctx.status =
      (dispatchCore ctx message).ctx.status ∧
    (ctx.handleIncomingMessage message flushSendOk).ctx.state =
      (dispatchCore ctx message).ctx.state ∧
    (ctx.handleIncomingMessage message flushSendOk).ctx.configProfiles =
      (dispatchCore ctx message).ctx.configProfiles ∧
    (ctx.handleIncomingMessage message flushSendOk).ctx.incomingMessageQueue =
      (dispatchCore ctx message).ctx.incomingMessageQueue ∧
    (ctx.handleIncomingMessage message flushSendOk).ctx.inputQueue =
      (dispatchCore ctx message).ctx.inputQueue := by
  unfold ServiceContext.handleIncomingMessage
  dsimp only
  split
  · have h := sendReturnBuffer_preserves_rest (dispatchCore ctx message).ctx
      false [] flushSendOk
    exact ⟨rfl, rfl, h.1, h.2.1, h.2.2.1, h.2.2.2.1, h.2.2.2.2⟩
  · exact ⟨rfl, rfl, rfl, rfl, rfl, rfl, rfl⟩

/-- Adding a list of inputs to a queue with no waiting consumers appends
the inputs to the buffered items in order. -/
theorem addInputListToBuffer_no_consumers {V : Type} (xs : List (CommandInput V)) :
    ∀ items : List (CommandInput V),
      addInputListToBuffer ⟨items, []⟩ xs = ⟨items ++ xs, []⟩ := by
  induction xs with
  | nil => intro items; simp [addInputListToBuffer]
  | cons x rest ih =>
    intro items
    have h1 : addInputListToBuffer (⟨items, []⟩ : AsyncQueueState (CommandInput V))
        (x :: rest) = addInputListToBuffer ⟨items ++ [x], []⟩ rest := rfl
    rw [h1, ih (items ++ [x])]
    simp

/-! Claim theorems. -/

/-- C2. The claim says `waitForAsyncQueue` scans the buffered items
front-to-back and removes exactly the first item satisfying the
predicate, leaving non-matching items in the queue and registering a
consumer only when no buffered item matches. The code instead shifts
the head of the buffer and returns it without consulting the predicate:
on a queue buffering the single item `42` and a predicate that rejects
everything, the call synchronously removes and returns `42` instead of
registering a consumer. -/
theorem waitForAsyncQueue_ignores_predicate_on_buffered_item :
    waitForAsyncQueue (T := Nat) ⟨[42], []⟩ (fun _ => false) 0 =
      (.returned 42, ⟨[], []⟩) ∧
    (fun _ => false : Nat → Bool) 42 = false := by
  exact ⟨rfl, rfl⟩

/-- C7 counterexample. On an active context whose input buffer holds one
item and one pending consumer (a waiting `getInputs` call), `cancel`
leaves the input buffer completely untouched: its item remains buffered
and its consumer remains registered, so the pending `getInputs` is not
failed with the cancelled error, contradicting the claim that both
queues are flushed. -/
theorem cancel_leaves_input_queue_cex :
    (ServiceContext.cancel
        { ctxActive with
          inputQueue := ⟨[⟨"name", 3⟩], [fun i => i.inputType == nameStr]⟩ }).ctx.status =
      ServiceContextStatus.Cancelled ∧
    (ServiceContext.cancel
        { ctxActive with
          inputQueue := ⟨[⟨"name", 3⟩], [fun i => i.inputType == nameStr]⟩ }).ctx.inputQueue.items =
      [⟨"name", 3⟩] ∧
    ([(⟨"name", 3⟩ : CommandInput Nat)] ≠ []) ∧
    (ServiceContext.cancel
        { ctxActive with
          inputQueue := ⟨[⟨"name", 3⟩], [fun i => i.inputType == nameStr]⟩ }).ctx.inputQueue.consumers.length =
      1 := by
  exact ⟨rfl, rfl, by decide, rfl⟩

/-- C7 amended. `cancel` flushes only the incoming message queue with
the cancelled error (its items are dropped and every registered
message-queue consumer, i.e. each pending `requestUserConfirmation` or
`requestPayment` wait, is rejected with that error), emits `onCancel`
and sets the status to `Cancelled`; the input buffer queue is left
untouched, so a pending `getInputs` wait is not failed. -/
theorem cancel_behavior {V State : Type} (ctx : ServiceContext V State) :
    (ctx.cancel).ctx.status = ServiceContextStatus.Cancelled ∧
    (ctx.cancel).ctx.incomingMessageQueue = ⟨[], []⟩ ∧
    (ctx.cancel).rejectedMessageWaiters = ctx.incomingMessageQueue.consumers.length ∧
    (ctx.cancel).onCancelEmitted = true ∧
    (ctx.cancel).ctx.inputQueue = ctx.inputQueue ∧
    (ctx.cancel).ctx.returnBuffer = ctx.returnBuffer ∧
    (ctx.cancel).ctx.configProfiles = ctx.configProfiles ∧
    (ctx.cancel).ctx.state = ctx.state := by
  exact ⟨rfl, rfl, rfl, rfl, rfl, rfl, rfl, rfl⟩

/-- C8 counterexample. An active context with return buffer `[itemA]` is
flushed while `itemB` is buffered during the in-flight send; the
transport fails. The restored buffer is `[itemB, itemA]`: the items
buffered after the double-buffer swap come first and the restored
unsent slice follows, contradicting the claim that the restored items
come first. -/
theorem sendReturnBuffer_order_cex :
    (ServiceContext.sendReturnBuffer
        { ctxActive with returnBuffer := [itemA] } false [itemB] false).ctx.returnBuffer =
      [itemB, itemA] ∧
    ([itemB, itemA] ≠ [itemA, itemB]) := by
  exact ⟨rfl, by decide⟩

/-- C8 amended. For every return-buffer flush of an active context whose
transport send fails, the unsent slice is concatenated back onto the
current return buffer preserving relative order such that the restored
items follow the items buffered after the double-buffer swap (restored
items come last), and the transport error is surfaced to the caller. -/
theorem sendReturnBuffer_failure_restores {V State : Type} (ctx : ServiceContext V State)
    (close : Bool) (during : List (CommandReturnItem V))
    (h : ctx.status = ServiceContextStatus.Active) :
    (ctx.sendReturnBuffer close during false).result = .error .transport ∧
    (ctx.sendReturnBuffer close during false).ctx.returnBuffer =
      during ++ ctx.returnBuffer ∧
    (ctx.sendReturnBuffer close during false).sent = none := by
  simp [ServiceContext.sendReturnBuffer, h]

/-- C8 amended, witness. -/
theorem sendReturnBuffer_failure_restores_witness :
    (ServiceContext.sendReturnBuffer
        { ctxActive with returnBuffer := [itemA] } false [itemB] false).result =
      .error .transport ∧
    (ServiceContext.sendReturnBuffer
        { ctxActive with returnBuffer := [itemA] } false [itemB] false).ctx.returnBuffer =
      [itemB] ++ [itemA] ∧
    (ServiceContext.sendReturnBuffer
        { ctxActive with returnBuffer := [itemA] } false [itemB] false).sent = none :=
  sendReturnBuffer_failure_restores
    { ctxActive with returnBuffer := [itemA] } false [itemB] rfl

/-- C9 counterexample. On a context whose status is `Finished`, the
public `cancel` method transitions the status to `Cancelled`
unconditionally: the transition Finished→Cancelled exists, contradicting
the claim that the status never changes once Finished. -/
theorem cancel_from_finished_cex :
    (ServiceContext.cancel { ctxActive with status := .Finished }).ctx.status =
      ServiceContextStatus.Cancelled ∧
    ServiceContextStatus.Cancelled ≠ ServiceContextStatus.Finished := by
  exact ⟨rfl, by decide⟩

/-- C9 amended. Once the status is Finished or Cancelled, incoming
message dispatch never changes it (every message is rejected with the
context unchanged in status) and `finish` fails with the not-active
error leaving the status unchanged; however the public `cancel` and
`suspend` methods set the status unconditionally, so `cancel` moves a
Finished context to Cancelled and `suspend` moves a Finished or
Cancelled context to Suspended. -/
theorem terminal_status_behavior {V State : Type} (ctx : ServiceContext V State)
    (message : Msg V) (flushSendOk sendOk : Bool)
    (h : ctx.status = ServiceContextStatus.Finished ∨
      ctx.status = ServiceContextStatus.Cancelled) :
    (ctx.handleIncomingMessage message flushSendOk).ctx.status = ctx.status ∧
    (ctx.handleIncomingMessage message flushSendOk).result ≠ .ok () ∧
    (ctx.finish sendOk).ctx.status = ctx.status ∧
    (ctx.finish sendOk).result = .error .notActive ∧
    (ctx.cancel).ctx.status = ServiceContextStatus.Cancelled ∧
    (ctx.suspend sendOk).ctx.status = ServiceContextStatus.Suspended := by
  have hInit : ctx.status ≠ ServiceContextStatus.Initialized := by
    rcases h with h | h <;> simp [h]
  have hAct : ctx.status ≠ ServiceContextStatus.Active := by
    rcases h with h | h <;> simp [h]
  refine ⟨?_, ?_, ?_, ?_, rfl, ?_⟩
  · cases message <;>
      simp [ServiceContext.handleIncomingMessage, dispatchCore, hInit, hAct,
        ServiceContext.sendReturnBuffer]
  · cases message <;>
      simp [ServiceContext.handleIncomingMessage, dispatchCore, hInit, hAct]
  · simp [ServiceContext.finish, ServiceContext.sendReturnBuffer, hAct]
  · simp [ServiceContext.finish, ServiceContext.sendReturnBuffer, hAct]
  · by_cases hb : ctx.returnBuffer.isEmpty <;>
      simp [ServiceContext.suspend, ServiceContext.sendReturnBuffer, hb]

/-- C9 amended, witness. -/
theorem terminal_status_behavior_witness :
    ({ ctxActive with status := .Finished } : ServiceContext Nat Nat).status =
        ServiceContextStatus.Finished ∧
    (ServiceContext.handleIncomingMessage
        { ctxActive with status := .Finished } Msg.cancel true).ctx.status =
      ServiceContextStatus.Finished ∧
    (ServiceContext.suspend
        { ctxActive with status := .Finished } true).ctx.status =
      ServiceContextStatus.Suspended :=
  ⟨rfl,
    (terminal_status_behavior
      { ctxActive with status := .Finished } Msg.cancel true true (.inl rfl)).1,
    (terminal_status_behavior
      { ctxActive with status := .Finished } Msg.cancel true true (.inl rfl)).2.2.2.2.2⟩

/-- C10. `finish` is atomic with respect to transport failure: when the
close-flush send succeeds, the status becomes Finished, `onFinish` is
emitted, and the `Return` carrying the whole return buffer with
`close = true` was sent; when the send fails, the error is propagated,
the status is unchanged, `onFinish` is not emitted, nothing was sent,
and every item of the return buffer is retained in the context. -/
theorem finish_atomic_transport_failure {V State : Type} (ctx : ServiceContext V State)
    (h : ctx.status = ServiceContextStatus.Active) :
    ((ctx.finish true).ctx.status = ServiceContextStatus.Finished ∧
      (ctx.finish true).onFinishEmitted = true ∧
      (ctx.finish true).sent = some (ctx.returnBuffer, true) ∧
      (ctx.finish true).result = .ok ()) ∧
    ((ctx.finish false).result = .error .transport ∧
      (ctx.finish false).ctx.status = ctx.status ∧
      (ctx.finish false).onFinishEmitted = false ∧
      (ctx.finish false).sent = none ∧
      (ctx.finish false).ctx.returnBuffer = ctx.returnBuffer) := by
  constructor
  · simp [ServiceContext.finish, ServiceContext.sendReturnBuffer, h]
  · simp [ServiceContext.finish, ServiceContext.sendReturnBuffer, h]

/-- C10 witness. -/
theorem finish_atomic_transport_failure_witness :
    (ServiceContext.finish { ctxActive with returnBuffer := [itemA] } true).ctx.status =
      ServiceContextStatus.Finished ∧
    (ServiceContext.finish { ctxActive with returnBuffer := [itemA] } true).sent =
      some ([itemA], true) ∧
    (ServiceContext.finish { ctxActive with returnBuffer := [itemA] } false).ctx.returnBuffer =
      [itemA] :=
  ⟨(finish_atomic_transport_failure
      { ctxActive with returnBuffer := [itemA] } rfl).1.1,
    (finish_atomic_transport_failure
      { ctxActive with returnBuffer := [itemA] } rfl).1.2.2.1,
    (finish_atomic_transport_failure
      { ctxActive with returnBuffer := [itemA] } rfl).2.2.2.2.2⟩

/-- C1. Constructing a new context from `serialize(ctx)` restores the
status, the state and both queues, but not the config profiles: the
constructor never reads `serializedState.configProfiles`, so the
reconstructed context has an empty profile map even though the original
context stored profile `p` and `serialize` emitted it. Consequently
`getConfigProfile` on the reconstructed context returns the undefined
value where the original returned the stored data: the round trip is
not equivalence-preserving. -/
theorem serialize_roundtrip_loses_configProfiles :
    (makeServiceContext {} cd1 0 (some (ctxRich.serialize true true))).status =
      ctxRich.status ∧
    (makeServiceContext {} cd1 0 (some (ctxRich.serialize true true))).state =
      ctxRich.state ∧
    (makeServiceContext {} cd1 0 (some (ctxRich.serialize true true))).incomingMessageQueue.items =
      ctxRich.incomingMessageQueue.items ∧
    (makeServiceContext {} cd1 0 (some (ctxRich.serialize true true))).inputQueue.items =
      ctxRich.inputQueue.items ∧
    (ctxRich.serialize true true).configProfiles = [(pStr, 5)] ∧
    (makeServiceContext {} cd1 0 (some (ctxRich.serialize true true))).configProfiles = [] ∧
    ctxRich.configProfiles ≠ [] ∧
    ctxRich.getConfigProfile pStr = .ok (some 5) ∧
    (makeServiceContext {} cd1 0 (some (ctxRich.serialize true true))).getConfigProfile pStr =
      .ok none := by
  refine ⟨rfl, rfl, rfl, rfl, by decide, rfl, by decide, rfl, rfl⟩

/-- C3 counterexample. An `Invoke` carrying a valid required config
profile `p` together with an input of the undeclared type `badA` is
rejected with `InvalidMessage`, yet the context is mutated: the
validated profile `p` has been stored into the `configProfiles` map
(which the claim requires to remain empty). -/
theorem invoke_rejection_mutates_profiles_cex :
    (ctxInit.handleIncomingMessage
        (.invoke [(pStr, 5)] [⟨"badA", 0⟩] none) true).result =
      .error (.invalidMessage [.unknownInputType 0 badAStr]) ∧
    (ctxInit.handleIncomingMessage
        (.invoke [(pStr, 5)] [⟨"badA", 0⟩] none) true).ctx.configProfiles =
      [(pStr, 5)] ∧
    ([((pStr : String), (5 : Nat))] ≠ []) := by
  refine ⟨rfl, rfl, by decide⟩

/-- C3 amended. For every `Invoke` whose required config profiles or
inputs fail validation, `handleIncomingMessage` rejects with
`InvalidMessage` carrying the collected child errors, the status remains
`Initialized`, and neither the input buffer nor the message queue nor
the return buffer receives any entry; however the `configProfiles` map
does not remain untouched: every required profile that was present and
schema-valid has been stored into it before the error check. -/
theorem invoke_rejection_behavior {V State : Type} (ctx : ServiceContext V State)
    (configProfiles : List (String × V)) (inputs : List (CommandInput V))
    (userConfirmation : Option UserConfirmation) (flushSendOk : Bool)
    (hstatus : ctx.status = ServiceContextStatus.Initialized)
    (herr : validateInputsAndAddErrors ctx.commandDefinition
        (processConfigProfiles ctx.commandDefinition.getRequiredConfigProfiles
          configProfiles ctx.configProfiles).1 inputs ≠ []) :
    (ctx.handleIncomingMessage (.invoke configProfiles inputs userConfirmation)
        flushSendOk).result =
      .error (.invalidMessage (validateInputsAndAddErrors ctx.commandDefinition
        (processConfigProfiles ctx.commandDefinition.getRequiredConfigProfiles
          configProfiles ctx.configProfiles).1 inputs)) ∧
    (ctx.handleIncomingMessage (.invoke configProfiles inputs userConfirmation)
        flushSendOk).ctx.status = ServiceContextStatus.Initialized ∧
    (ctx.handleIncomingMessage (.invoke configProfiles inputs userConfirmation)
        flushSendOk).ctx.inputQueue = ctx.inputQueue ∧
    (ctx.handleIncomingMessage (.invoke configProfiles inputs userConfirmation)
        flushSendOk).ctx.incomingMessageQueue = ctx.incomingMessageQueue ∧
    (ctx.handleIncomingMessage (.invoke configProfiles inputs userConfirmation)
        flushSendOk).ctx.configProfiles =
      (processConfigProfiles ctx.commandDefinition.getRequiredConfigProfiles
        configProfiles ctx.configProfiles).2 := by
  obtain ⟨hres, _, hstat, _, hprof, hmsgq, hinq⟩ :=
    handleIncomingMessage_proj ctx (.invoke configProfiles inputs userConfirmation)
      flushSendOk
  rw [hres, hstat, hprof, hmsgq, hinq]
  simp [dispatchCore, hstatus, herr]

/-- C3 amended, witness. -/
theorem invoke_rejection_behavior_witness :
    (validateInputsAndAddErrors ctxInit.commandDefinition
        (processConfigProfiles ctxInit.commandDefinition.getRequiredConfigProfiles
          [(pStr, 5)] ctxInit.configProfiles).1 [⟨"badA", 0⟩] ≠ []) ∧
    (ctxInit.handleIncomingMessage (.invoke [(pStr, 5)] [⟨"badA", 0⟩] none)
        true).ctx.status = ServiceContextStatus.Initialized :=
  ⟨by decide,
    (invoke_rejection_behavior ctxInit [(pStr, 5)] [⟨"badA", 0⟩] none true rfl
      (by decide)).2.1⟩

/-- C4 counterexample. A `ProvideInput` with two entries of undeclared
types dispatched to an active context is rejected with both child
errors collected: validation visited the second entry after the first
one failed, contradicting the fail-fast reading in which validation
stops at the first failing entry and only one child error is reported. -/
theorem provideInput_collects_all_errors_cex :
    (ctxActive.handleIncomingMessage
        (.provideInput [⟨"badA", 0⟩, ⟨"badB", 1⟩]) true).result =
      .error (.invalidMessage
        [.unknownInputType 0 badAStr, .unknownInputType 1 badBStr]) ∧
    ([MessageError.unknownInputType 0 badAStr, .unknownInputType 1 badBStr] ≠
      [MessageError.unknownInputType 0 badAStr]) := by
  refine ⟨rfl, by decide⟩

/-- C4 amended. When `handleIncomingMessage` receives a `ProvideInput`
while the status is Active, it validates the whole input list with the
same collect-all routine used for `Invoke` (every entry is visited and
every error is collected); if any error was collected it rejects with
`InvalidMessage` carrying all of them and buffers nothing, otherwise it
pushes each entry into the input buffer (appended in order when no
consumer is waiting) and emits `onMessage`. -/
theorem provideInput_validation_behavior {V State : Type} (ctx : ServiceContext V State)
    (inputs : List (CommandInput V)) (flushSendOk : Bool)
    (hstatus : ctx.status = ServiceContextStatus.Active) :
    (validateInputsAndAddErrors ctx.commandDefinition [] inputs = [] →
      (ctx.handleIncomingMessage (.provideInput inputs) flushSendOk).result = .ok () ∧
      (ctx.handleIncomingMessage (.provideInput inputs) flushSendOk).ctx.inputQueue =
        addInputListToBuffer ctx.inputQueue inputs ∧
      (ctx.inputQueue.consumers = [] →
        (ctx.handleIncomingMessage (.provideInput inputs) flushSendOk).ctx.inputQueue.items =
          ctx.inputQueue.items ++ inputs) ∧
      (ctx.handleIncomingMessage (.provideInput inputs) flushSendOk).onMessageEmitted =
        [.provideInput inputs]) ∧
    (validateInputsAndAddErrors ctx.commandDefinition [] inputs ≠ [] →
      (ctx.handleIncomingMessage (.provideInput inputs) flushSendOk).result =
        .error (.invalidMessage (validateInputsAndAddErrors ctx.commandDefinition [] inputs)) ∧
      (ctx.handleIncomingMessage (.provideInput inputs) flushSendOk).ctx.inputQueue =
        ctx.inputQueue ∧
      (ctx.handleIncomingMessage (.provideInput inputs) flushSendOk).onMessageEmitted =
        []) := by
  obtain ⟨hres, hmsg, _, _, _, _, hinq⟩ :=
    handleIncomingMessage_proj ctx (.provideInput inputs) flushSendOk
  constructor
  · intro hok
    have hcore : dispatchCore ctx (.provideInput inputs) =
        ⟨{ ctx with inputQueue := addInputListToBuffer ctx.inputQueue inputs },
          .ok (), [.provideInput inputs], false, 0, none⟩ := by
      simp [dispatchCore, hstatus, hok]
    refine ⟨?_, ?_, ?_, ?_⟩
    · rw [hres, hcore]
    · rw [hinq, hcore]
    · intro hcons
      have heta : ctx.inputQueue = ⟨ctx.inputQueue.items, []⟩ := by
        rw [← hcons]
      rw [hinq, hcore]
      show (addInputListToBuffer ctx.inputQueue inputs).items =
        ctx.inputQueue.items ++ inputs
      rw [heta, addInputListToBuffer_no_consumers]
    · rw [hmsg, hcore]
  · intro herr
    have hcore : dispatchCore ctx (.provideInput inputs) =
        ⟨ctx, .error (.invalidMessage
          (validateInputsAndAddErrors ctx.commandDefinition [] inputs)), [], false, 0,
          none⟩ := by
      simp [dispatchCore, hstatus, herr]
    refine ⟨?_, ?_, ?_⟩
    · rw [hres, hcore]
    · rw [hinq, hcore]
    · rw [hmsg, hcore]

/-- C4 amended, witness. -/
theorem provideInput_validation_behavior_witness :
    (ctxActive.status = ServiceContextStatus.Active) ∧
    (ctxActive.handleIncomingMessage
        (.provideInput [⟨"name", 4⟩]) true).ctx.inputQueue.items = [⟨"name", 4⟩] ∧
    (ctxActive.handleIncomingMessage
        (.provideInput [⟨"badA", 0⟩, ⟨"badB", 1⟩]) true).onMessageEmitted = [] :=
  ⟨rfl,
    by
      have h := ((provideInput_validation_behavior ctxActive
        [⟨"name", 4⟩] true rfl).1 (by decide)).2.2.1 rfl
      simpa using h,
    ((provideInput_validation_behavior ctxActive
      [⟨"badA", 0⟩, ⟨"badB", 1⟩] true rfl).2 (by decide)).2.2⟩

/-- C5 counterexample. Calling `getInputs` for the declared type `name`
with `count = 1` and a 300000 ms timeout on an empty input buffer does
not block indefinitely on its first wait: the first iteration passes
timeout `-1` (the immediate-return mode of the queue), the `RequestInput`
with `minCount = 1` is sent right away rather than after a timeout
elapses, only the second iteration waits with the 300000 ms timeout, and
the run ends in the input-timeout error instead of blocking. -/
theorem getInputs_first_wait_nonblocking_cex :
    getInputsRun cd1 [] nameStr 1 300000 =
      some ⟨.timeout, [(nameStr, { description := "", minCount := some 1 })],
        [-1, 300000], []⟩ ∧
    ((-1 : Int) < 0) ∧
    (some (GetInputsTrace.mk (V := Nat) .timeout
        [(nameStr, { description := "", minCount := some 1 })] [-1, 300000] []) ≠
      some ⟨.blocked, [(nameStr, { description := "", minCount := some 1 })],
        [-1, 300000], []⟩) := by
  refine ⟨rfl, by decide, by decide⟩

/-- C5 amended. For every `getInputs` call for a declared input type on
a context whose input buffer is empty, with positive `count` and
positive `timeoutMs` and no input arriving while it runs: the first
wait iteration passes timeout `-1` and returns empty immediately rather
than blocking, whereupon a `RequestInput` with `minCount` equal to the
remaining count is sent at once; only the subsequent iteration uses
`timeoutMs`, and the input-timeout error is raised when that waiting
iteration elapses with no item. -/
theorem getInputs_empty_buffer_behavior {V : Type} (cd : CommandDefinition V)
    (type : String) (inputType : InputDefinition V) (count : Nat) (waitTimeoutMs : Int)
    (hlookup : cd.getInputType type = some inputType)
    (hcount : 0 < count) (htmo : 0 < waitTimeoutMs) :
    getInputsRun (V := V) cd [] type count waitTimeoutMs =
      some ⟨.timeout,
        [(type, { inputType.descriptor with minCount := some count })],
        [-1, waitTimeoutMs], []⟩ := by
  have hnotdone : ¬ ([] : List V).length ≥ count := by
    simp only [List.length_nil]
    omega
  have htne : waitTimeoutMs ≠ 0 := by omega
  unfold getInputsRun
  rw [hlookup]
  unfold getInputsLoop
  simp [hnotdone, htne]
  omega

/-- C5 amended, witness. -/
theorem getInputs_empty_buffer_behavior_witness :
    cd1.getInputType nameStr =
      some { descriptor := {}, validator := none } ∧
    getInputsRun cd1 [] nameStr 1 300000 =
      some ⟨.timeout, [(nameStr, { description := "", minCount := some 1 })],
        [-1, 300000], []⟩ :=
  ⟨rfl,
    getInputs_empty_buffer_behavior cd1 nameStr
      { descriptor := {}, validator := none } 1 300000 rfl (by decide) (by decide)⟩

/-- C6 counterexample. With the default options and zero jitter, a run
of `sendMessage` in which every transport attempt fails with a
retryable error performs 3 attempts and waits the delays
`[0, 750, 1500]` — the linear progression `floor(500·(1.5·k))` — which
matches neither `[500, 750, 1125]` (the spec's `500·1.5^k` for
`k = 0,1,2`) nor `[750, 1125, 1687]` (the same for `k = 1,2,3`): the
backoff is not exponential. -/
theorem retry_delay_not_exponential_cex :
    ClientContext.sendMessage DefaultRetryOptions allRetryOutcomes zeroJitter =
      ⟨false, 3, [0, 750, 1500]⟩ ∧
    [specExponentialDelay 0 0, specExponentialDelay 1 0, specExponentialDelay 2 0] =
      [500, 750, 1125] ∧
    [specExponentialDelay 1 0, specExponentialDelay 2 0, specExponentialDelay 3 0] =
      [750, 1125, 1687] ∧
    (([0, 750, 1500] : List Int) ≠ [500, 750, 1125]) ∧
    (([0, 750, 1500] : List Int) ≠ [750, 1125, 1687]) := by
  have htrace : ClientContext.sendMessage DefaultRetryOptions allRetryOutcomes zeroJitter =
      ⟨false, 3,
        [getRetryDelay 0 DefaultRetryOptions (zeroJitter 0),
          getRetryDelay 1 DefaultRetryOptions (zeroJitter 1),
          getRetryDelay 2 DefaultRetryOptions (zeroJitter 2)]⟩ := rfl
  have hg : ∀ k : Nat, getRetryDelay k DefaultRetryOptions (zeroJitter k) = 750 * k := by
    intro k
    have hcast : ((500 : Rat) * (3 / 2 * (k : Rat))) = ((750 * (k : Int) : Int) : Rat) := by
      push_cast
      ring
    unfold getRetryDelay DefaultRetryOptions zeroJitter
    dsimp only
    rw [hcast, Int.floor_intCast]
    norm_num
  have h0 : specExponentialDelay 0 0 = 500 := by
    unfold specExponentialDelay
    norm_num
  have h1 : specExponentialDelay 1 0 = 750 := by
    unfold specExponentialDelay
    norm_num
  have h2 : specExponentialDelay 2 0 = 1125 := by
    unfold specExponentialDelay
    norm_num
  have h3 : specExponentialDelay 3 0 = 1687 := by
    unfold specExponentialDelay
    norm_num
  refine ⟨?_, by rw [h0, h1, h2], by rw [h1, h2, h3], by decide, by decide⟩
  rw [htrace, hg 0, hg 1, hg 2]
  norm_num

/-- C6 amended. Under the defaults (3 tries, base delay 500 ms,
multiplier 1.5, max jitter 100 ms), `sendMessage` retries only on
retryable transport errors: when every attempt fails retryably, exactly
3 attempts are made before `SendMessageError` is raised and the delay
waited after the k-th failed attempt is `floor(500 · 1.5 · k)` plus the
jitter — a linear progression `750·k + jitter`, each delay within
`[750·k, 750·k + 100)` — while a non-retryable first failure raises
`SendMessageError` after a single attempt with no delay. -/
theorem sendMessage_linear_backoff (jitters : Nat → Nat)
    (hj : ∀ k, jitters k < 100) :
    ClientContext.sendMessage DefaultRetryOptions allRetryOutcomes jitters =
      ⟨false, 3,
        [getRetryDelay 0 DefaultRetryOptions (jitters 0),
          getRetryDelay 1 DefaultRetryOptions (jitters 1),
          getRetryDelay 2 DefaultRetryOptions (jitters 2)]⟩ ∧
    (∀ k : Nat, getRetryDelay k DefaultRetryOptions (jitters k) = 750 * k + jitters k) ∧
    (∀ k : Nat, 750 * (k : Int) ≤ getRetryDelay k DefaultRetryOptions (jitters k) ∧
      getRetryDelay k DefaultRetryOptions (jitters k) < 750 * k + 100) ∧
    (∀ outcomes : Nat → AttemptOutcome, outcomes 0 = .transportError false →
      ClientContext.sendMessage DefaultRetryOptions outcomes jitters =
        ⟨false, 1, []⟩) := by
  have hdelay : ∀ k : Nat, getRetryDelay k DefaultRetryOptions (jitters k) =
      750 * k + jitters k := by
    intro k
    have hcast : ((500 : Rat) * (3 / 2 * (k : Rat))) = ((750 * (k : Int) : Int) : Rat) := by
      push_cast
      ring
    unfold getRetryDelay DefaultRetryOptions
    dsimp only
    rw [hcast, Int.floor_intCast]
  refine ⟨rfl, hdelay, ?_, ?_⟩
  · intro k
    have h1 := hdelay k
    have h2 := hj k
    rw [h1]
    omega
  · intro outcomes h0
    show sendMessageLoop DefaultRetryOptions outcomes jitters 0 3 = ⟨false, 1, []⟩
    simp only [sendMessageLoop, h0]
    rfl

/-- C6 amended, witness. -/
theorem sendMessage_linear_backoff_witness :
    (∀ k, zeroJitter k < 100) ∧
    ClientContext.sendMessage DefaultRetryOptions allRetryOutcomes zeroJitter =
      ⟨false, 3,
        [getRetryDelay 0 DefaultRetryOptions (zeroJitter 0),
          getRetryDelay 1 DefaultRetryOptions (zeroJitter 1),
          getRetryDelay 2 DefaultRetryOptions (zeroJitter 2)]⟩ :=
  ⟨fun k => by norm_num [zeroJitter],
    (sendMessage_linear_backoff zeroJitter (fun k => by norm_num [zeroJitter])).1⟩

end Asmv
